import Mathlib

/-!
# Gomoji: the emoji gallery handler

A shallow embedding of `main.go`: the `handler` function, the execution of the
page template `tmpl` against the decoded records, and the client-side
`filterEmojis` script that the page carries.

Conventions of the embedding.

* Go strings that reach the template come out of `encoding/json`, hence are
  valid UTF-8; they are modelled by `String`.
* `http.Get` and `json.Decoder.Decode` are library calls on the network; their
  outcome is the input `Upstream` of `handler`.
* Go leaves the iteration order of a map unspecified; the choice made by the
  runtime is the input `seed` of `handler`.
* `html/template` rewrites the static text of a template while it escapes it:
  HTML comments and JavaScript line comments are elided.  The text constants
  below are the static text of `tmpl` after that pass.
* The escapers of `html/template`, the template function `index`, `http.Error`
  and the response writer belong to the Go standard library; they are written
  down here as that library defines them, under its own names.
-/

namespace Gomoji

/-! ## Data model -/

/-- The record type `Emoji` of `main.go`; `HtmlCode` has element type `template.HTML`. -/
structure Emoji where
  Name : String
  Category : String
  Group : String
  HtmlCode : List String
  Unicode : List String
deriving DecidableEq, Repr

/-- The local type `TemplateData` of `handler`. -/
structure TemplateData where
  Data : List Emoji
  Groups : List String
deriving DecidableEq, Repr

/-! ## Static text of `tmpl` -/

/-- Lines of `tmpl` from its start up to the `select` element (lines 10 to 155 of `main.go`). -/
def pageHeadLines : List String :=
  [ "",
    "<!DOCTYPE html>",
    "<html>",
    "<head>",
    "    <title>Emoji Gallery</title>",
    "    <style>",
    "        body \x7b",
    "            font-family: Arial, sans-serif;",
    "            margin: 20px;",
    "        \x7d",
    "        h1 \x7b",
    "            text-align: center;",
    "        \x7d",
    "        .search-bar \x7b",
    "            margin-bottom: 20px;",
    "            text-align: center;",
    "        \x7d",
    "        .filter-bar \x7b",
    "            margin-bottom: 20px;",
    "            text-align: center;",
    "        \x7d",
    "        input[type=\"text\"] \x7b",
    "            width: 300px;",
    "            padding: 10px;",
    "            font-size: 16px;",
    "        \x7d",
    "        select \x7b",
    "            padding: 10px;",
    "            font-size: 16px;",
    "        \x7d",
    "        .gallery \x7b",
    "            display: flex;",
    "            flex-wrap: wrap;",
    "            justify-content: center;",
    "        \x7d",
    "        .emoji-card \x7b",
    "            border: 1px solid #ddd;",
    "            border-radius: 8px;",
    "            margin: 10px;",
    "            padding: 15px;",
    "            width: 120px;",
    "            text-align: center;",
    "            box-shadow: 0px 4px 8px rgba(0, 0, 0, 0.1);",
    "        \x7d",
    "        .emoji-code \x7b",
    "            font-size: 2em;",
    "            cursor: pointer;",
    "        \x7d",
    "        .emoji-name \x7b",
    "            font-weight: bold;",
    "            margin-top: 10px;",
    "        \x7d",
    "        .hidden \x7b",
    "            display: none;",
    "        \x7d",
    "        .notification \x7b",
    "            position: fixed;",
    "            top: 20px;",
    "            left: 50%;",
    "            transform: translateX(-50%);",
    "            background-color: #4CAF50;",
    "            color: white;",
    "            padding: 10px 20px;",
    "            border-radius: 5px;",
    "            opacity: 1;",
    "            transition: opacity 0.5s ease;",
    "            z-index: 1000;",
    "        \x7d",
    "        .notification.fade-out \x7b",
    "            opacity: 0;",
    "        \x7d",
    "    </style>",
    "    <script>",
    "        ",
    "        function filterEmojis() \x7b",
    "            var input = document.getElementById(\"searchInput\").value.toLowerCase();",
    "            var selectedGroup = document.getElementById(\"groupFilter\").value.toLowerCase();",
    "            var emojiCards = document.getElementsByClassName(\"emoji-card\");",
    "",
    "            for (var i = 0; i < emojiCards.length; i++) \x7b",
    "                var emojiName = emojiCards[i].getElementsByClassName(\"emoji-name\")[0].innerText.toLowerCase();",
    "                var emojiCategory = emojiCards[i].getElementsByClassName(\"emoji-category\")[0].innerText.toLowerCase();",
    "                var emojiGroup = emojiCards[i].getElementsByClassName(\"emoji-group\")[0].innerText.toLowerCase();",
    "",
    "                var nameMatches = emojiName.includes(input) || emojiCategory.includes(input);",
    "                var groupMatches = selectedGroup === \"all\" || emojiGroup === selectedGroup;",
    "",
    "                if (nameMatches && groupMatches) \x7b",
    "                    emojiCards[i].classList.remove(\"hidden\");",
    "                \x7d else \x7b",
    "                    emojiCards[i].classList.add(\"hidden\");",
    "                \x7d",
    "            \x7d",
    "        \x7d",
    "",
    "        ",
    "        function copyEmoji(emojiCode) \x7b",
    "            navigator.clipboard.writeText(emojiCode).then(function() \x7b",
    "                showNotification(\"Emoji copied to clipboard: \" + emojiCode);",
    "            \x7d, function(err) \x7b",
    "                console.error(\"Could not copy emoji: \", err);",
    "            \x7d);",
    "        \x7d",
    "",
    "        ",
    "        function showNotification(message) \x7b",
    "            var notification = document.createElement(\"div\");",
    "            notification.className = \"notification\";",
    "            notification.innerText = message;",
    "            document.body.appendChild(notification);",
    "",
    "            ",
    "            setTimeout(function() \x7b",
    "                notification.classList.add(\"fade-out\");",
    "                ",
    "                setTimeout(function() \x7b",
    "                    document.body.removeChild(notification);",
    "                \x7d, 500); ",
    "            \x7d, 2000); ",
    "        \x7d",
    "",
    "        ",
    "        document.addEventListener(\"DOMContentLoaded\", function() \x7b",
    "            var emojiCodes = document.getElementsByClassName(\"emoji-code\");",
    "",
    "            for (var i = 0; i < emojiCodes.length; i++) \x7b",
    "                ",
    "                emojiCodes[i].addEventListener(\"click\", function() \x7b",
    "                    var emoji = this.innerHTML.trim(); ",
    "                    copyEmoji(emoji);",
    "                \x7d);",
    "            \x7d",
    "        \x7d);",
    "    </script>",
    "</head>",
    "<body>",
    "    <h1>Emoji Gallery</h1>",
    "",
    "    ",
    "    <div class=\"search-bar\">",
    "        <input type=\"text\" id=\"searchInput\" placeholder=\"Search emojis...\" onkeyup=\"filterEmojis()\">",
    "    </div>",
    "",
    "    ",
    "    <div class=\"filter-bar\">",
    "        <label for=\"groupFilter\">Filter by group:</label>",
    "        " ]

/-- Static text of `tmpl` before the `select` element. -/
def pageHead : String := String.intercalate "\n" pageHeadLines

/-- Opening tag of the drop-down and its fixed first option (lines 156 and 157). -/
def selectOpen : String :=
  "<select id=\"groupFilter\" onchange=\"filterEmojis()\">\n            <option value=\"all\">All</option>\n            "

/-- Text of the body of `range .Groups` before the first action (line 159). -/
def optionOpen : String := "\n                <option value=\""

/-- Text between the two actions of line 159. -/
def optionMid : String := "\">"

/-- Text of the body of `range .Groups` after the second action (lines 159 and 160). -/
def optionClose : String := "</option>\n            "

/-- Closing tag of the drop-down (line 161). -/
def selectClose : String := "\n        </select>"

/-- Text between the drop-down and `range .Data` (lines 161 to 166). -/
def galleryOpen : String := "\n    </div>\n\n    \n    <div class=\"gallery\">\n    "

/-- Text of the body of `range .Data` before `index .HtmlCode 0` (lines 167 and 168). -/
def cardOpen : String :=
  "\n        <div class=\"emoji-card\">\n            <div class=\"emoji-code\">"

/-- Text between `index .HtmlCode 0` and `.Name` (lines 168 and 169). -/
def cardName : String := "</div> \n            <div class=\"emoji-name\">"

/-- Text between `.Name` and `.Category` (lines 169 and 170). -/
def cardCategory : String := "</div>\n            <div class=\"emoji-category\">"

/-- Text between `.Category` and `.Group` (lines 170 and 171). -/
def cardGroup : String := "</div>\n            <div class=\"emoji-group\">"

/-- Text of the body of `range .Data` after `.Group` (lines 171 to 173). -/
def cardClose : String := "</div>\n        </div>\n    "

/-- Text of `tmpl` after `range .Data` (lines 173 to 178). -/
def pageTail : String := "\n    </div>\n\n</body>\n</html>\n"

/-! ## Escapers of `html/template` -/

/-- The table `htmlReplacementTable`: the replacement of a rune, when it has one. -/
def htmlReplacementTable (r : Char) : Option String :=
  if r.toNat = 0 then some "\uFFFD"
  else if r.toNat = 34 then some "&#34;"
  else if r.toNat = 38 then some "&amp;"
  else if r.toNat = 39 then some "&#39;"
  else if r.toNat = 43 then some "&#43;"
  else if r.toNat = 60 then some "&lt;"
  else if r.toNat = 62 then some "&gt;"
  else none

/-- The loop of `htmlReplacer` over the runes of its argument. -/
def htmlReplacerRunes : List Char → List Char
  | [] => []
  | r :: rs =>
    (match htmlReplacementTable r with
      | some repl => repl.data
      | none => [r]) ++ htmlReplacerRunes rs

/-- The function `htmlReplacer` with `htmlReplacementTable`. -/
def htmlReplacer (s : String) : String := ⟨htmlReplacerRunes s.data⟩

/-- The escaper `htmlEscaper` applied to a plain string (text context). -/
def htmlEscaper (s : String) : String := htmlReplacer s

/-- The escaper `attrEscaper` applied to a plain string (quoted attribute value). -/
def attrEscaper (s : String) : String := htmlReplacer s

/-- The escaper `htmlEscaper` applied to a value of type `template.HTML`: returned as is. -/
def htmlEscaperHTML (s : String) : String := s

/-- The template function `index` on a slice: the element, or an error when the
position is out of range (the text of the error is not observed by `handler`). -/
def index (item : List String) (i : Nat) : Except String String :=
  match item[i]? with
  | some x => .ok x
  | none => .error "error calling index: index out of range"

/-! ## The response writer -/

/-- State of an `http.ResponseWriter`: header map, status line (absent until
`WriteHeader` runs) and the body written so far. -/
structure ResponseWriter where
  header : List (String × String)
  status : Option Nat
  body : String
deriving DecidableEq, Repr

namespace ResponseWriter

/-- The writer a handler receives. -/
def fresh : ResponseWriter := ⟨[], none, ""⟩

/-- `w.Header().Del(key)`. -/
def Del (w : ResponseWriter) (key : String) : ResponseWriter :=
  { w with header := w.header.filter (fun p => p.1 != key) }

/-- `w.Header().Set(key, value)`. -/
def Set (w : ResponseWriter) (key value : String) : ResponseWriter :=
  { w with header := w.header.filter (fun p => p.1 != key) ++ [(key, value)] }

/-- `w.WriteHeader(code)`: only the first call sets the status. -/
def WriteHeader (w : ResponseWriter) (code : Nat) : ResponseWriter :=
  match w.status with
  | some _ => w
  | none => { w with status := some code }

/-- `w.Write(data)`: the first write sends status 200 when no status was sent. -/
def Write (w : ResponseWriter) (data : String) : ResponseWriter :=
  let w := w.WriteHeader 200
  { w with body := w.body ++ data }

end ResponseWriter

/-- `http.Error(w, error, code)`. -/
def Error (w : ResponseWriter) (error : String) (code : Nat) : ResponseWriter :=
  let w := w.Del "Content-Length"
  let w := w.Set "Content-Type" "text/plain; charset=utf-8"
  let w := w.Set "X-Content-Type-Options" "nosniff"
  let w := w.WriteHeader code
  w.Write (error ++ "\n")

/-! ## Execution of the template -/

/-- Body of `range .Groups` (lines 158 to 160), executed for each group in turn. -/
def execGroups (w : ResponseWriter) : List String → ResponseWriter
  | [] => w
  | g :: gs =>
    let w := w.Write optionOpen
    let w := w.Write (attrEscaper g)
    let w := w.Write optionMid
    let w := w.Write (htmlEscaper g)
    let w := w.Write optionClose
    execGroups w gs

/-- Body of `range .Data` (lines 166 to 173), executed for each record in turn;
execution stops at the first action that fails, and what was written stays. -/
def execData (w : ResponseWriter) : List Emoji → ResponseWriter × Option String
  | [] => (w, none)
  | e :: es =>
    let w := w.Write cardOpen
    match index e.HtmlCode 0 with
    | .error err => (w, some err)
    | .ok glyph =>
      let w := w.Write (htmlEscaperHTML glyph)
      let w := w.Write cardName
      let w := w.Write (htmlEscaper e.Name)
      let w := w.Write cardCategory
      let w := w.Write (htmlEscaper e.Category)
      let w := w.Write cardGroup
      let w := w.Write (htmlEscaper e.Group)
      let w := w.Write cardClose
      execData w es

/-- `t.Execute(w, data)` for the template parsed from `tmpl`: the writer after
execution and the error returned, if any. -/
def Execute (w : ResponseWriter) (data : TemplateData) : ResponseWriter × Option String :=
  let w := w.Write (pageHead ++ selectOpen)
  let w := execGroups w data.Groups
  let w := w.Write (selectClose ++ galleryOpen)
  match execData w data.Data with
  | (w, some err) => (w, some err)
  | (w, none) => (w.Write pageTail, none)

/-- `template.New("webpage").Parse(tmpl)`: the error returned. The text of
`tmpl` is a constant with balanced `range`/`end` pairs, field chains and the
predefined function `index`, so the parse succeeds. -/
def Parse : Option String := none

/-! ## Go maps -/

/-- A Go `map[string]bool` as the list of its entries, keys pairwise distinct,
in order of first insertion. -/
abbrev GoMap := List (String × Bool)

namespace GoMap

/-- The statement `m[k] = v`. -/
def assign (m : GoMap) (k : String) (v : Bool) : GoMap :=
  if m.any (fun p => p.1 == k) then m.map (fun p => if p.1 == k then (k, v) else p)
  else m ++ [(k, v)]

/-- Keys of the map. -/
def keys (m : GoMap) : List String := m.map Prod.fst

/-- Keys in the order `for k := range m` visits them. The order is the
runtime's choice: `seed` selects one of the arrangements of the keys. -/
def rangeKeys (m : GoMap) (seed : Nat) : List String :=
  let perms := m.keys.permutations'
  perms.getD (seed % perms.length) m.keys

end GoMap

/-! ## The handler -/

/-- Outcome of `http.Get(url)` followed by `Decode(&apiResponse)` on the body. -/
inductive Upstream where
  /-- `http.Get` returned the error `err`. -/
  | getFailed (err : String)
  /-- A response with status `StatusCode`; decoding its body left `apiResponse`
  in the slice and returned `decodeErr`. -/
  | response (StatusCode : Nat) (apiResponse : List Emoji) (decodeErr : Option String)
deriving DecidableEq, Repr

/-- The loop of lines 210 to 213. -/
def groupMap (apiResponse : List Emoji) : GoMap :=
  apiResponse.foldl (fun m emoji => m.assign emoji.Group true) []

/-- The loop of lines 215 to 218. -/
def groups (apiResponse : List Emoji) (seed : Nat) : List String :=
  (groupMap apiResponse).rangeKeys seed

/-- The function `handler`: the response writer on return and the lines printed
on standard output. -/
def handler (w : ResponseWriter) (up : Upstream) (seed : Nat) : ResponseWriter × List String :=
  match up with
  | .getFailed err => (w, [err])
  | .response _ _ (some _) =>
    (Error w "Failed to parse API response" 500, [])
  | .response _ apiResponse none =>
    match Parse with
    | some _ => (Error w "Failed to parse template" 500, [])
    | none => ((Execute w ⟨apiResponse, groups apiResponse seed⟩).1, [])

/-! ## The client-side filter -/

/-- A gallery card as the script sees it: its class list and the `innerText` of
its `emoji-name`, `emoji-category` and `emoji-group` children. -/
structure Card where
  classList : List String
  name : String
  category : String
  group : String
deriving DecidableEq, Repr

/-- `classList.remove(token)`. -/
def classListRemove (classList : List String) (token : String) : List String :=
  classList.filter (fun c => c != token)

/-- `classList.add(token)`. -/
def classListAdd (classList : List String) (token : String) : List String :=
  if token ∈ classList then classList else classList ++ [token]

/-- `s.includes(pat)`: `pat` occurs in `s` as a contiguous run. -/
def includes (s pat : String) : Bool :=
  s.data.tails.any (fun t => pat.data.isPrefixOf t)

/-- The function `filterEmojis` of the page script (lines 84 to 103), with the
values of the search field and of the drop-down; `toLowerCase` is the string
method of the script engine. -/
def filterEmojis (toLowerCase : String → String) (searchInput groupFilter : String)
    (emojiCards : List Card) : List Card :=
  let input := toLowerCase searchInput
  let selectedGroup := toLowerCase groupFilter
  emojiCards.map fun card =>
    let emojiName := toLowerCase card.name
    let emojiCategory := toLowerCase card.category
    let emojiGroup := toLowerCase card.group
    let nameMatches := includes emojiName input || includes emojiCategory input
    let groupMatches := selectedGroup == "all" || emojiGroup == selectedGroup
    if nameMatches && groupMatches then
      { card with classList := classListRemove card.classList "hidden" }
    else
      { card with classList := classListAdd card.classList "hidden" }

/-- Lower-casing of the letters `A` to `Z`; `toLowerCase` acts so on ASCII text. -/
def asciiLower (s : String) : String := ⟨s.data.map Char.toLower⟩

/-! ## Reading of the page

The parts of the page named by the claims, as functions of the data: they are
compared with what `Execute` writes in the theorems below. -/

/-- One `option` element written by an iteration of `range .Groups`. -/
def optionElement (g : String) : String :=
  optionOpen ++ attrEscaper g ++ optionMid ++ htmlEscaper g ++ optionClose

/-- The drop-down: the `select` element with the fixed option and one option per group. -/
def dropDown (gs : List String) : String :=
  selectOpen ++ String.join (gs.map optionElement) ++ selectClose

/-- One gallery card written by an iteration of `range .Data` for a record with a glyph. -/
def card (e : Emoji) : String :=
  cardOpen ++ e.HtmlCode.headD "" ++ cardName ++ htmlEscaper e.Name ++ cardCategory
    ++ htmlEscaper e.Category ++ cardGroup ++ htmlEscaper e.Group ++ cardClose


/-- Number of positions of the character sequence at which `pat` starts. -/
def occurrences (pat : List Char) : List Char → Nat
  | [] => 0
  | c :: cs => (if pat.isPrefixOf (c :: cs) then 1 else 0) + occurrences pat cs

/-- Number of occurrences of `pat` in `s`. -/
def countOccurrences (pat s : String) : Nat := occurrences pat.data s.data


/-- The record of the example payload of the specification. -/
def grinning : Emoji := ⟨"grinning face", "face", "smileys", ["&#128512;"], ["U+1F600"]⟩

/-- The record decoded from `{"name":"ghost","category":"face","group":"smileys","htmlCode":[],"unicode":[]}`,
or from the same object without its last two members. -/
def ghost : Emoji := ⟨"ghost", "face", "smileys", [], []⟩

/-- A card is visible when its class list lacks `hidden`. -/
def visible (c : Card) : Prop := "hidden" ∉ c.classList

instance (c : Card) : Decidable (visible c) := by unfold visible; infer_instance

/-- Two records agree on what the template reads: name, category, group and the
first element of `HtmlCode`. -/
def sameRendered (e₁ e₂ : Emoji) : Prop :=
  e₁.Name = e₂.Name ∧ e₁.Category = e₂.Category ∧ e₁.Group = e₂.Group ∧
    e₁.HtmlCode.head? = e₂.HtmlCode.head?

instance (e₁ e₂ : Emoji) : Decidable (sameRendered e₁ e₂) := by
  unfold sameRendered; infer_instance

theorem Write_body (w : ResponseWriter) (s : String) : (w.Write s).body = w.body ++ s := by
  unfold ResponseWriter.Write ResponseWriter.WriteHeader
  cases h : w.status <;> simp

theorem Write_status (w : ResponseWriter) (s : String) :
    (w.Write s).status = some (w.status.getD 200) := by
  unfold ResponseWriter.Write ResponseWriter.WriteHeader
  cases h : w.status <;> simp [h]

theorem Write_header (w : ResponseWriter) (s : String) : (w.Write s).header = w.header := by
  unfold ResponseWriter.Write ResponseWriter.WriteHeader
  cases h : w.status <;> simp

theorem Write_Write (w : ResponseWriter) (a b : String) :
    (w.Write a).Write b = w.Write (a ++ b) := by
  obtain ⟨hd, st, bd⟩ := w
  cases st <;> simp [ResponseWriter.Write, ResponseWriter.WriteHeader, String.append_assoc]

theorem join_cons (s : String) (l : List String) : String.join (s :: l) = s ++ String.join l := by
  apply String.ext
  simp

theorem join_append (l₁ l₂ : List String) :
    String.join (l₁ ++ l₂) = String.join l₁ ++ String.join l₂ := by
  apply String.ext
  simp

theorem execGroups_Write (w : ResponseWriter) (a : String) (gs : List String) :
    execGroups (w.Write a) gs = w.Write (a ++ String.join (gs.map optionElement)) := by
  induction gs generalizing a with
  | nil => simp [execGroups, String.join]
  | cons g gs ih =>
    simp only [execGroups, Write_Write, ih, List.map_cons, join_cons, optionElement,
      String.append_assoc]


theorem index_zero_cons (x : String) (xs : List String) : index (x :: xs) 0 = .ok x := by
  simp [index]

theorem index_zero_nil : index [] 0 = .error "error calling index: index out of range" := by
  simp [index]

theorem execData_cons_glyph (w : ResponseWriter) (a : String) (e : Emoji) (es : List Emoji)
    (h : e.HtmlCode ≠ []) :
    execData (w.Write a) (e :: es) = execData (w.Write (a ++ card e)) es := by
  obtain ⟨glyph, tl, hg⟩ := List.exists_cons_of_ne_nil h
  simp only [execData, hg, index_zero_cons, htmlEscaperHTML, Write_Write, card, List.headD_cons,
    String.append_assoc]

theorem execData_cons_missing (w : ResponseWriter) (a : String) (e : Emoji) (es : List Emoji)
    (h : e.HtmlCode = []) :
    execData (w.Write a) (e :: es)
      = (w.Write (a ++ cardOpen), some "error calling index: index out of range") := by
  simp only [execData, h, index_zero_nil, Write_Write]

theorem execData_of_glyphs (w : ResponseWriter) (a : String) (records : List Emoji)
    (h : ∀ e ∈ records, e.HtmlCode ≠ []) :
    execData (w.Write a) records = (w.Write (a ++ String.join (records.map card)), none) := by
  induction records generalizing a with
  | nil => simp [execData, String.join]
  | cons e es ih =>
    rw [execData_cons_glyph w a e es (h e (List.mem_cons_self _ _)),
      ih _ (fun x hx => h x (List.mem_cons_of_mem _ hx))]
    simp only [List.map_cons, join_cons, String.append_assoc]

theorem execData_of_missing (w : ResponseWriter) (a : String) (good : List Emoji) (bad : Emoji)
    (rest : List Emoji) (hg : ∀ e ∈ good, e.HtmlCode ≠ []) (hb : bad.HtmlCode = []) :
    execData (w.Write a) (good ++ bad :: rest)
      = (w.Write (a ++ String.join (good.map card) ++ cardOpen),
          some "error calling index: index out of range") := by
  induction good generalizing a with
  | nil => simp [execData_cons_missing w a bad rest hb, String.join]
  | cons e es ih =>
    rw [List.cons_append, execData_cons_glyph w a e _ (hg e (List.mem_cons_self _ _)),
      ih _ (fun x hx => hg x (List.mem_cons_of_mem _ hx))]
    simp only [List.map_cons, join_cons, String.append_assoc]

theorem Execute_of_glyphs (w : ResponseWriter) (records : List Emoji) (gs : List String)
    (h : ∀ e ∈ records, e.HtmlCode ≠ []) :
    Execute w ⟨records, gs⟩
      = (w.Write (pageHead ++ dropDown gs ++ galleryOpen ++ String.join (records.map card)
          ++ pageTail), none) := by
  simp only [Execute, execGroups_Write, Write_Write, execData_of_glyphs _ _ _ h, dropDown,
    String.append_assoc]

theorem Execute_of_missing (w : ResponseWriter) (good : List Emoji) (bad : Emoji)
    (rest : List Emoji) (gs : List String) (hg : ∀ e ∈ good, e.HtmlCode ≠ [])
    (hb : bad.HtmlCode = []) :
    Execute w ⟨good ++ bad :: rest, gs⟩
      = (w.Write (pageHead ++ dropDown gs ++ galleryOpen ++ String.join (good.map card)
          ++ cardOpen), some "error calling index: index out of range") := by
  simp only [Execute, execGroups_Write, Write_Write, execData_of_missing _ _ _ _ _ hg hb, dropDown,
    String.append_assoc]

theorem execData_exists (w : ResponseWriter) (es : List Emoji) :
    ∃ rest err, ∀ a, execData (w.Write a) es = (w.Write (a ++ rest), err) := by
  induction es with
  | nil => exact ⟨"", none, fun a => by simp [execData]⟩
  | cons e es ih =>
    by_cases h : e.HtmlCode = []
    · exact ⟨cardOpen, _, fun a => execData_cons_missing w a e es h⟩
    · obtain ⟨r, err, hr⟩ := ih
      exact ⟨card e ++ r, err, fun a => by
        rw [execData_cons_glyph w a e es h, hr, String.append_assoc]⟩

/-- Whatever the records, execution writes the head of the page and the whole
drop-down first; what follows does not depend on the groups. -/
theorem Execute_exists (w : ResponseWriter) (records : List Emoji) :
    ∃ rest err, ∀ gs, Execute w ⟨records, gs⟩
      = (w.Write (pageHead ++ dropDown gs ++ galleryOpen ++ rest), err) := by
  obtain ⟨r, err, hr⟩ := execData_exists w records
  cases err with
  | none =>
    refine ⟨r ++ pageTail, none, fun gs => ?_⟩
    simp only [Execute, execGroups_Write, Write_Write]
    rw [hr]
    simp only [Write_Write, dropDown, String.append_assoc]
  | some msg =>
    refine ⟨r, some msg, fun gs => ?_⟩
    simp only [Execute, execGroups_Write, Write_Write]
    rw [hr]
    simp only [Write_Write, dropDown, String.append_assoc]

theorem keys_assign (m : GoMap) (k : String) (v : Bool) :
    (m.assign k v).keys = if k ∈ m.keys then m.keys else m.keys ++ [k] := by
  unfold GoMap.assign GoMap.keys
  by_cases h : k ∈ m.map Prod.fst
  · have h2 : (m.any fun p => p.1 == k) = true := by
      simp only [List.any_eq_true, beq_iff_eq]
      obtain ⟨p, hp, rfl⟩ := List.mem_map.1 h
      exact ⟨p, hp, rfl⟩
    rw [if_pos h2, if_pos h, List.map_map]
    apply List.map_congr_left
    intro p _
    by_cases hk : p.1 = k <;> simp [hk]
  · have h2 : ¬ (m.any fun p => p.1 == k) = true := by
      simp only [List.any_eq_true, beq_iff_eq, not_exists, not_and]
      intro p hp hk
      exact h (List.mem_map.2 ⟨p, hp, hk⟩)
    rw [if_neg h2, if_neg h]
    simp

theorem keys_foldl (records : List Emoji) (m : GoMap) (hm : m.keys.Nodup) :
    (records.foldl (fun m emoji => m.assign emoji.Group true) m).keys.Nodup ∧
    ∀ g, g ∈ (records.foldl (fun m emoji => m.assign emoji.Group true) m).keys
      ↔ g ∈ m.keys ∨ ∃ e ∈ records, e.Group = g := by
  induction records generalizing m with
  | nil => simp [hm]
  | cons e es ih =>
    have hn : (m.assign e.Group true).keys.Nodup := by
      rw [keys_assign]
      split
      · exact hm
      · rename_i h
        exact List.Nodup.append hm (List.nodup_singleton _) (by simpa using h)
    obtain ⟨h1, h2⟩ := ih (m.assign e.Group true) hn
    refine ⟨h1, fun g => ?_⟩
    rw [List.foldl_cons, h2, keys_assign]
    by_cases hk : e.Group ∈ m.keys
    · rw [if_pos hk]
      constructor
      · rintro (h | ⟨x, hx, rfl⟩)
        · exact Or.inl h
        · exact Or.inr ⟨x, List.mem_cons_of_mem _ hx, rfl⟩
      · rintro (h | ⟨x, hx, rfl⟩)
        · exact Or.inl h
        · rcases List.mem_cons.1 hx with rfl | hx
          · exact Or.inl hk
          · exact Or.inr ⟨x, hx, rfl⟩
    · rw [if_neg hk]
      constructor
      · rintro (h | ⟨x, hx, rfl⟩)
        · rcases List.mem_append.1 h with h | h
          · exact Or.inl h
          · exact Or.inr ⟨e, List.mem_cons_self _ _, (List.mem_singleton.1 h).symm⟩
        · exact Or.inr ⟨x, List.mem_cons_of_mem _ hx, rfl⟩
      · rintro (h | ⟨x, hx, rfl⟩)
        · exact Or.inl (List.mem_append_left _ h)
        · rcases List.mem_cons.1 hx with rfl | hx
          · exact Or.inl (List.mem_append_right _ (List.mem_singleton_self _))
          · exact Or.inr ⟨x, hx, rfl⟩

theorem rangeKeys_perm (m : GoMap) (seed : Nat) : (m.rangeKeys seed).Perm m.keys := by
  unfold GoMap.rangeKeys
  simp only [List.getD_eq_getElem?_getD]
  cases h : (m.keys.permutations')[seed % m.keys.permutations'.length]? with
  | none => simp
  | some l =>
    simp only [Option.getD_some]
    exact List.mem_permutations'.1 (List.getElem?_mem h)

theorem groups_perm (records : List Emoji) (seed : Nat) :
    (groups records seed).Perm (groupMap records).keys := rangeKeys_perm _ _

theorem groupMap_keys_nodup (records : List Emoji) : (groupMap records).keys.Nodup :=
  (keys_foldl records [] (by simp [GoMap.keys])).1

theorem mem_groupMap_keys (records : List Emoji) (g : String) :
    g ∈ (groupMap records).keys ↔ ∃ e ∈ records, e.Group = g := by
  have := (keys_foldl records [] (by simp [GoMap.keys])).2 g
  simpa [GoMap.keys, groupMap] using this

theorem htmlReplacerRunes_safe (l : List Char) :
    ∀ c ∈ htmlReplacerRunes l, c ≠ '<' ∧ c ≠ '>' ∧ c ≠ Char.ofNat 34 ∧ c ≠ Char.ofNat 39 := by
  induction l with
  | nil => simp [htmlReplacerRunes]
  | cons r rs ih =>
    intro c hc
    simp only [htmlReplacerRunes, List.mem_append] at hc
    rcases hc with hc | hc
    · unfold htmlReplacementTable at hc
      split_ifs at hc with h0 h1 h2 h3 h4 h5 h6
      · simp at hc; subst hc; decide
      · simp at hc; rcases hc with rfl | rfl | rfl | rfl | rfl <;> decide
      · simp at hc; rcases hc with rfl | rfl | rfl | rfl | rfl <;> decide
      · simp at hc; rcases hc with rfl | rfl | rfl | rfl | rfl <;> decide
      · simp at hc; rcases hc with rfl | rfl | rfl | rfl | rfl <;> decide
      · simp at hc; rcases hc with rfl | rfl | rfl | rfl <;> decide
      · simp at hc; rcases hc with rfl | rfl | rfl | rfl <;> decide
      · simp at hc
        subst hc
        refine ⟨?_, ?_, ?_, ?_⟩ <;> rintro rfl <;> simp_all
    · exact ih c hc

theorem occurrences_append_of_not_mem (p a b : List Char) (h : '<' ∉ a) :
    occurrences ('<' :: p) (a ++ b) = occurrences ('<' :: p) b := by
  induction a with
  | nil => rfl
  | cons x xs ih =>
    have hx : x ≠ '<' := fun e => h (e ▸ List.mem_cons_self _ _)
    have hxs : '<' ∉ xs := fun e => h (List.mem_cons_of_mem _ e)
    have hb : ('<' == x) = false := by simpa using fun e => hx e.symm
    simp [occurrences, List.isPrefixOf, hb, ih hxs]

theorem occurrences_optionElement (g : String) (rest : List Char) :
    occurrences "<option".data ((optionElement g).data ++ rest)
      = 1 + occurrences "<option".data rest := by
  have hs : '<' ∉ htmlReplacerRunes g.data := fun h => (htmlReplacerRunes_safe _ _ h).1 rfl
  have e1 : "<option".data = '<' :: "option".data := rfl
  simp only [optionElement, String.data_append, optionOpen, optionMid, optionClose, attrEscaper,
    htmlEscaper, htmlReplacer, List.append_assoc]
  simp [occurrences, List.isPrefixOf, occurrences_append_of_not_mem _ _ _ hs]

theorem occurrences_options (gs : List String) (rest : List Char) :
    occurrences "<option".data ((String.join (gs.map optionElement)).data ++ rest)
      = gs.length + occurrences "<option".data rest := by
  induction gs with
  | nil => simp [String.join]
  | cons g gs ih =>
    rw [List.map_cons, join_cons, String.data_append, List.append_assoc,
      occurrences_optionElement, ih, List.length_cons]
    omega

theorem countOccurrences_dropDown (gs : List String) :
    countOccurrences "<option" (dropDown gs) = gs.length + 1 := by
  unfold countOccurrences dropDown
  rw [String.data_append, String.data_append, List.append_assoc]
  have h1 : ∀ rest, occurrences "<option".data (selectOpen.data ++ rest)
      = 1 + occurrences "<option".data rest := by
    intro rest
    simp [selectOpen, occurrences, List.isPrefixOf]
  have h2 : occurrences "<option".data selectClose.data = 0 := by
    simp [selectClose, occurrences, List.isPrefixOf]
  rw [h1, occurrences_options, h2]
  omega

theorem includes_iff (s pat : String) :
    includes s pat = true ↔ ∃ a b : String, s = a ++ pat ++ b := by
  unfold includes
  simp only [List.any_eq_true, List.mem_tails]
  constructor
  · rintro ⟨t, ⟨a, ha⟩, ht⟩
    obtain ⟨b, hb⟩ := List.isPrefixOf_iff_prefix.1 ht
    refine ⟨⟨a⟩, ⟨b⟩, String.ext ?_⟩
    simp [← ha, ← hb]
  · rintro ⟨a, b, rfl⟩
    refine ⟨pat.data ++ b.data, ⟨a.data, by simp⟩, ?_⟩
    exact List.isPrefixOf_iff_prefix.2 ⟨b.data, rfl⟩


theorem append_left_cancel (a b c : String) (h : a ++ b = a ++ c) : b = c := by
  apply String.ext
  have := congrArg String.data h
  simpa using this

theorem handler_body_of_glyphs (sc : Nat) (records : List Emoji) (seed : Nat)
    (h : ∀ e ∈ records, e.HtmlCode ≠ []) :
    handler .fresh (.response sc records none) seed
      = (⟨[], some 200, pageHead ++ dropDown (groups records seed) ++ galleryOpen
          ++ String.join (records.map card) ++ pageTail⟩, []) := by
  simp only [handler, Parse, Execute_of_glyphs _ _ _ h]
  simp [ResponseWriter.Write, ResponseWriter.WriteHeader, ResponseWriter.fresh]

theorem handler_body_of_missing (sc : Nat) (good : List Emoji) (bad : Emoji) (rest : List Emoji)
    (seed : Nat) (hg : ∀ e ∈ good, e.HtmlCode ≠ []) (hb : bad.HtmlCode = []) :
    handler .fresh (.response sc (good ++ bad :: rest) none) seed
      = (⟨[], some 200, pageHead ++ dropDown (groups (good ++ bad :: rest) seed) ++ galleryOpen
          ++ String.join (good.map card) ++ cardOpen⟩, []) := by
  simp only [handler, Parse, Execute_of_missing _ _ _ _ _ hg hb]
  simp [ResponseWriter.Write, ResponseWriter.WriteHeader, ResponseWriter.fresh]

theorem groups_nil (seed : Nat) : groups [] seed = [] :=
  List.Perm.eq_nil (groups_perm [] seed)

theorem cardOpen_not_pageTail (x a : String) : x ++ cardOpen ≠ a ++ pageTail := by
  intro h
  have h1 := congrArg (fun s : String => s.data.getLast?) h
  have e1 : cardOpen.data.getLast? = some '>' := by decide
  have e2 : pageTail.data.getLast? = some '\n' := by decide
  simp only [String.data_append, List.getLast?_append, e1, e2, Option.or] at h1
  exact absurd (Option.some.inj h1) (by decide)

theorem Error_fresh (error : String) (code : Nat) :
    Error .fresh error code
      = ⟨[("Content-Type", "text/plain; charset=utf-8"), ("X-Content-Type-Options", "nosniff")],
          some code, error ++ "\n"⟩ := by
  simp [Error, ResponseWriter.fresh, ResponseWriter.Del, ResponseWriter.Set,
    ResponseWriter.WriteHeader, ResponseWriter.Write]

theorem groupMap_congr (r₁ r₂ : List Emoji) (h : r₁.map Emoji.Group = r₂.map Emoji.Group) :
    groupMap r₁ = groupMap r₂ := by
  have key : ∀ (r : List Emoji) (m : GoMap),
      r.foldl (fun m emoji => m.assign emoji.Group true) m
        = (r.map Emoji.Group).foldl (fun m g => m.assign g true) m := by
    intro r
    induction r with
    | nil => intro m; rfl
    | cons e es ih => intro m; simp [ih]
  unfold groupMap
  rw [key, key, h]

theorem visible_classListRemove (classList : List String) :
    "hidden" ∉ classListRemove classList "hidden" := by
  simp [classListRemove]

theorem hidden_classListAdd (classList : List String) :
    "hidden" ∈ classListAdd classList "hidden" := by
  unfold classListAdd
  split
  · assumption
  · simp

theorem execData_congr (r₁ r₂ : List Emoji) (h : List.Forall₂ sameRendered r₁ r₂)
    (w : ResponseWriter) : execData w r₁ = execData w r₂ := by
  induction h generalizing w with
  | nil => rfl
  | @cons e₁ e₂ l₁ l₂ hab _ ih =>
    obtain ⟨hn, hc, hg, hh⟩ := hab
    cases h₁ : e₁.HtmlCode <;> cases h₂ : e₂.HtmlCode <;> rw [h₁, h₂] at hh <;>
      simp only [List.head?_nil, List.head?_cons, Option.some.injEq, reduceCtorEq] at hh
    · simp only [execData, h₁, h₂, index_zero_nil]
    · subst hh
      simp only [execData, h₁, h₂, index_zero_cons, hn, hc, hg, ih]

theorem map_Group_congr (r₁ r₂ : List Emoji) (h : List.Forall₂ sameRendered r₁ r₂) :
    r₁.map Emoji.Group = r₂.map Emoji.Group := by
  induction h with
  | nil => rfl
  | cons hab _ ih => simp [hab.2.2.1, ih]

theorem handler_status_of_decoded (sc : Nat) (records : List Emoji) (seed : Nat) :
    (handler .fresh (.response sc records none) seed).1.status = some 200 := by
  obtain ⟨rest, err, h⟩ := Execute_exists .fresh records
  simp only [handler, Parse, h, Write_status]
  rfl

/-- C1. For every decoded sequence of records the `Groups` list built by the
handler has no duplicates, holds exactly the `Group` values of the records, and
has as many elements as there are distinct values; the page starts with the
head followed by the drop-down built from that list, and the drop-down has one
`<option` more than there are distinct values, the fixed "All" option, which is
the only one when there are no records. -/
theorem groups_distinct_and_one_option_each (StatusCode : Nat) (records : List Emoji)
    (seed : Nat) :
    (groups records seed).Nodup ∧
    (∀ g, g ∈ groups records seed ↔ ∃ e ∈ records, e.Group = g) ∧
    (groups records seed).length = (records.map Emoji.Group).toFinset.card ∧
    (∃ rest, (handler .fresh (.response StatusCode records none) seed).1.body
      = pageHead ++ dropDown (groups records seed) ++ galleryOpen ++ rest) ∧
    countOccurrences "<option" (dropDown (groups records seed))
      = (records.map Emoji.Group).toFinset.card + 1 ∧
    dropDown (groups [] seed) = selectOpen ++ selectClose := by
  have hnd : (groups records seed).Nodup :=
    (groups_perm records seed).nodup_iff.2 (groupMap_keys_nodup records)
  have hmem : ∀ g, g ∈ groups records seed ↔ ∃ e ∈ records, e.Group = g := fun g =>
    ((groups_perm records seed).mem_iff).trans (mem_groupMap_keys records g)
  have hlen : (groups records seed).length = (records.map Emoji.Group).toFinset.card := by
    rw [← List.toFinset_card_of_nodup hnd]
    congr 1
    ext g
    simp only [List.mem_toFinset, hmem, List.mem_map]
  refine ⟨hnd, hmem, hlen, ?_, ?_, ?_⟩
  · obtain ⟨rest, err, h⟩ := Execute_exists .fresh records
    refine ⟨rest, ?_⟩
    simp only [handler, Parse, h, Write_body]
    simp [ResponseWriter.fresh, String.append_assoc]
  · rw [countOccurrences_dropDown, hlen]
  · rw [groups_nil]
    simp [dropDown, String.join]

/-- C2, refuted as stated. The payload
`[{"name":"ghost","category":"face","group":"smileys","htmlCode":[],"unicode":[]}]`
decodes to one record, yet the page holds no card for it: the body stops after the
opening of the card, and neither the name nor the closing text of the page follows. -/
theorem no_card_for_record_without_glyph :
    (handler .fresh (.response 200 [ghost] none) 0).1.body
      = pageHead ++ dropDown ["smileys"] ++ (galleryOpen ++ cardOpen) ∧
    includes (galleryOpen ++ cardOpen) "ghost" = false ∧
    (handler .fresh (.response 200 [ghost] none) 0).1.body
      ≠ pageHead ++ dropDown ["smileys"] ++ galleryOpen ++ String.join ([ghost].map card)
          ++ pageTail := by
  have hb := handler_body_of_missing 200 [] ghost [] 0 (by simp) rfl
  have hg : groups [ghost] 0 = ["smileys"] := by decide
  simp only [List.nil_append, hg, List.map_nil] at hb
  rw [hb]
  refine ⟨by simp [String.join, String.append_assoc], by decide, ?_⟩
  simp only [String.join, List.foldl_nil, String.append_empty, List.map_cons, List.map_nil,
    List.foldl_cons, String.append_assoc]
  intro h
  have h1 := append_left_cancel _ _ _ h
  have h2 := append_left_cancel _ _ _ h1
  have h3 := append_left_cancel _ _ _ h2
  revert h3
  decide

/-- C2, amended. When every decoded record has at least one `HtmlCode` element, the
page is the head, the drop-down, then one card per record in the order of the
records, then the tail; the card of a record is its first glyph followed by its
escaped name, category and group. -/
theorem one_card_per_record_in_order (StatusCode : Nat) (records : List Emoji) (seed : Nat)
    (h : ∀ e ∈ records, e.HtmlCode ≠ []) :
    (handler .fresh (.response StatusCode records none) seed).1.body
      = pageHead ++ dropDown (groups records seed) ++ galleryOpen
          ++ String.join (records.map card) ++ pageTail ∧
    (records.map card).length = records.length ∧
    (∀ i : Nat, (records.map card)[i]? = records[i]?.map card) ∧
    (∀ e ∈ records, ∃ glyph tl, e.HtmlCode = glyph :: tl ∧
      card e = cardOpen ++ glyph ++ cardName ++ htmlEscaper e.Name ++ cardCategory
        ++ htmlEscaper e.Category ++ cardGroup ++ htmlEscaper e.Group ++ cardClose) ∧
    (∀ e ∈ records, ∃ a b, (handler .fresh (.response StatusCode records none) seed).1.body
      = a ++ htmlEscaper e.Name ++ b) ∧
    (∀ e ∈ records, ∃ a b, (handler .fresh (.response StatusCode records none) seed).1.body
      = a ++ optionElement e.Group ++ b) := by
  have hb := handler_body_of_glyphs StatusCode records seed h
  rw [hb]
  refine ⟨rfl, by simp, fun i => by simp, ?_, ?_, ?_⟩
  · intro e he
    obtain ⟨glyph, tl, hg⟩ := List.exists_cons_of_ne_nil (h e he)
    exact ⟨glyph, tl, hg, by simp [card, hg]⟩
  · intro e he
    obtain ⟨l₁, l₂, rfl⟩ := List.append_of_mem he
    refine ⟨pageHead ++ dropDown (groups (l₁ ++ e :: l₂) seed) ++ galleryOpen
      ++ String.join (l₁.map card) ++ cardOpen ++ e.HtmlCode.headD "" ++ cardName,
      cardCategory ++ htmlEscaper e.Category ++ cardGroup ++ htmlEscaper e.Group ++ cardClose
      ++ String.join (l₂.map card) ++ pageTail, ?_⟩
    simp only [List.map_append, List.map_cons, join_append, join_cons, card,
      String.append_assoc]
  · intro e he
    have hm : e.Group ∈ groups records seed :=
      ((groups_perm records seed).mem_iff).2 ((mem_groupMap_keys records _).2 ⟨e, he, rfl⟩)
    obtain ⟨l₁, l₂, hl⟩ := List.append_of_mem hm
    refine ⟨pageHead ++ selectOpen ++ String.join (l₁.map optionElement),
      String.join (l₂.map optionElement) ++ selectClose ++ galleryOpen
      ++ String.join (records.map card) ++ pageTail, ?_⟩
    simp only [hl, dropDown, List.map_append, List.map_cons, join_append, join_cons,
      String.append_assoc]


/-- C2, amended, at the example payload of the specification: the single record
"grinning face" has a glyph, and the body contains the text "grinning face" and
the option "smileys". -/
theorem one_card_per_record_grinning_face :
    (∀ e ∈ [grinning], e.HtmlCode ≠ []) ∧
    (∃ a b, (handler .fresh (.response 200 [grinning] none) 0).1.body
      = a ++ "grinning face" ++ b) ∧
    (∃ a b, (handler .fresh (.response 200 [grinning] none) 0).1.body
      = a ++ "<option value=\"smileys\">smileys</option>" ++ b) := by
  have hg : ∀ e ∈ [grinning], e.HtmlCode ≠ [] := by decide
  have key := one_card_per_record_in_order 200 [grinning] 0 hg
  refine ⟨hg, ?_, ?_⟩
  · obtain ⟨a, b, hab⟩ := key.2.2.2.2.1 grinning (List.mem_singleton_self _)
    have e1 : htmlEscaper grinning.Name = "grinning face" := by decide
    exact ⟨a, b, by rw [hab, e1]⟩
  · obtain ⟨a, b, hab⟩ := key.2.2.2.2.2 grinning (List.mem_singleton_self _)
    have e2 : optionElement grinning.Group
        = "\n                " ++ "<option value=\"smileys\">smileys</option>"
          ++ "\n            " := by decide
    exact ⟨a ++ "\n                ", "\n            " ++ b, by
      rw [hab, e2]; simp only [String.append_assoc]⟩

/-- C3, refuted as stated. For the records `[grinning, ghost]`, the second without
`HtmlCode`, the action `index .HtmlCode 0` fails, execution returns an error, and
the handler leaves on the response, with status 200, a page that stops after the
opening of the second card: the closing text of the document is not written. -/
theorem partial_page_for_record_without_glyph :
    index ghost.HtmlCode 0 = .error "error calling index: index out of range" ∧
    (Execute .fresh ⟨[grinning, ghost], groups [grinning, ghost] 0⟩).2
      = some "error calling index: index out of range" ∧
    handler .fresh (.response 200 [grinning, ghost] none) 0
      = (⟨[], some 200, pageHead ++ dropDown ["smileys"] ++ galleryOpen ++ card grinning
          ++ cardOpen⟩, []) ∧
    ¬ ∃ a, (handler .fresh (.response 200 [grinning, ghost] none) 0).1.body = a ++ pageTail := by
  have hg : groups [grinning, ghost] 0 = ["smileys"] := by decide
  have hgl : ∀ e ∈ [grinning], e.HtmlCode ≠ [] := by decide
  have hE := Execute_of_missing .fresh [grinning] ghost [] (groups [grinning, ghost] 0) hgl rfl
  have hb := handler_body_of_missing 200 [grinning] ghost [] 0 hgl rfl
  have hj : String.join ([grinning].map card) = card grinning := by
    simp [String.join]
  simp only [List.cons_append, List.nil_append, hg, hj] at hb hE
  refine ⟨rfl, by rw [hg, hE], hb, ?_⟩
  rw [hb]
  rintro ⟨a, ha⟩
  exact cardOpen_not_pageTail _ _ ha

/-- C3, amended. For every sequence of decoded records whose `HtmlCode` lists are
all non-empty, the empty sequence included, `index .HtmlCode 0` succeeds on every
record, execution returns no error, and what is written is the complete
document: the head, the drop-down, every card and the closing text. -/
theorem rendering_completes_when_glyphs_present (w : ResponseWriter) (records : List Emoji)
    (gs : List String) (h : ∀ e ∈ records, e.HtmlCode ≠ []) :
    (∀ e ∈ records, ∃ glyph, index e.HtmlCode 0 = .ok glyph) ∧
    (Execute w ⟨records, gs⟩).2 = none ∧
    (Execute w ⟨records, gs⟩).1.body
      = w.body ++ (pageHead ++ dropDown gs ++ galleryOpen ++ String.join (records.map card))
          ++ pageTail ∧
    (Execute w ⟨records, gs⟩).1.status = some (w.status.getD 200) ∧
    (Execute .fresh ⟨[], gs⟩).1.body = pageHead ++ dropDown gs ++ galleryOpen ++ pageTail := by
  rw [Execute_of_glyphs w records gs h, Execute_of_glyphs .fresh [] gs (by simp)]
  refine ⟨?_, rfl, by simp [Write_body, String.append_assoc], Write_status _ _, ?_⟩
  · intro e he
    obtain ⟨glyph, tl, hg⟩ := List.exists_cons_of_ne_nil (h e he)
    exact ⟨glyph, by rw [hg, index_zero_cons]⟩
  · simp [Write_body, ResponseWriter.fresh, String.join]

/-- C3, amended, at the records `[grinning]`. -/
theorem rendering_completes_grinning_face :
    (∀ e ∈ [grinning], e.HtmlCode ≠ []) ∧
    (Execute .fresh ⟨[grinning], ["smileys"]⟩).2 = none ∧
    (Execute .fresh ⟨[grinning], ["smileys"]⟩).1.body
      = ResponseWriter.fresh.body ++ (pageHead ++ dropDown ["smileys"] ++ galleryOpen
          ++ String.join ([grinning].map card)) ++ pageTail :=
  ⟨by decide,
    (rendering_completes_when_glyphs_present .fresh [grinning] ["smileys"] (by decide)).2.1,
    (rendering_completes_when_glyphs_present .fresh [grinning] ["smileys"] (by decide)).2.2.1⟩

/-- C5, refuted as stated. An upstream response with status 500 whose body is the
JSON text `[]` decodes without error; the handler answers it with status 200 and a
gallery page of zero entries. -/
theorem non_2xx_upstream_rendered_as_gallery :
    handler .fresh (.response 500 [] none) 0
      = (⟨[], some 200, pageHead ++ dropDown [] ++ galleryOpen ++ pageTail⟩, []) := by
  have h := handler_body_of_glyphs 500 [] 0 (by simp)
  simpa [groups_nil, String.join] using h

/-- C5, amended. For every upstream response whose body fails to decode, whatever
its status code, the handler writes status 500 with the text "Failed to parse API
response" and no gallery page; the status code of the upstream response is not
examined: responses that differ only in it get the same answer, and a response
whose body decodes is answered with status 200 whatever its own status. -/
theorem decode_failure_answers_500_upstream_status_unread (w : ResponseWriter)
    (StatusCode : Nat) (records : List Emoji) (decodeErr : String) (seed : Nat) :
    handler w (.response StatusCode records (some decodeErr)) seed
      = (Error w "Failed to parse API response" 500, []) ∧
    (handler .fresh (.response StatusCode records (some decodeErr)) seed).1.status = some 500 ∧
    (handler .fresh (.response StatusCode records (some decodeErr)) seed).1.body
      = "Failed to parse API response\n" ∧
    (∀ (StatusCode' : Nat) (err : Option String),
      handler w (.response StatusCode records err) seed
        = handler w (.response StatusCode' records err) seed) ∧
    (handler .fresh (.response StatusCode records none) seed).1.status = some 200 := by
  refine ⟨rfl, ?_, ?_, ?_, handler_status_of_decoded _ _ _⟩
  · simp only [handler, Error_fresh]
  · simp only [handler, Error_fresh]
    decide
  · intro sc err
    cases err <;> rfl

/-- C6. Whenever decoding the upstream body fails, the response of the handler is
status 500, the plain-text headers set by `http.Error`, and the line "Failed to
parse API response", nothing else; it is the same whatever records were decoded
before the failure, and nothing is printed. -/
theorem decode_failure_response_is_atomic (StatusCode StatusCode' : Nat)
    (records records' : List Emoji) (decodeErr decodeErr' : String) (seed seed' : Nat)
    (w : ResponseWriter) :
    handler .fresh (.response StatusCode records (some decodeErr)) seed
      = (⟨[("Content-Type", "text/plain; charset=utf-8"), ("X-Content-Type-Options", "nosniff")],
          some 500, "Failed to parse API response\n"⟩, []) ∧
    handler w (.response StatusCode records (some decodeErr)) seed
      = handler w (.response StatusCode' records' (some decodeErr')) seed' := by
  refine ⟨?_, rfl⟩
  simp only [handler, Error_fresh]
  decide

/-- C7. Whenever `http.Get` fails, the handler returns the response writer exactly
as it received it, no status, header or body written, and its only effect is the
printed error. -/
theorem fetch_failure_leaves_response_untouched (w : ResponseWriter) (err : String)
    (seed : Nat) :
    handler w (.getFailed err) seed = (w, [err]) := rfl

/-- C8, refuted as stated. The same two records, of groups "a" and "b", rendered
under two iteration orders of the group map give different bodies: the options
come out as a, b in one run and as b, a in the other. -/
theorem option_order_varies_between_runs :
    groups [⟨"x", "c", "a", ["1"], []⟩, ⟨"y", "c", "b", ["2"], []⟩] 0 = ["a", "b"] ∧
    groups [⟨"x", "c", "a", ["1"], []⟩, ⟨"y", "c", "b", ["2"], []⟩] 1 = ["b", "a"] ∧
    (handler .fresh (.response 200 [⟨"x", "c", "a", ["1"], []⟩, ⟨"y", "c", "b", ["2"], []⟩] none)
        0).1.body
      ≠ (handler .fresh
          (.response 200 [⟨"x", "c", "a", ["1"], []⟩, ⟨"y", "c", "b", ["2"], []⟩] none) 1).1.body := by
  have h0 : groups [⟨"x", "c", "a", ["1"], []⟩, ⟨"y", "c", "b", ["2"], []⟩] 0 = ["a", "b"] := by
    decide
  have h1 : groups [⟨"x", "c", "a", ["1"], []⟩, ⟨"y", "c", "b", ["2"], []⟩] 1 = ["b", "a"] := by
    decide
  refine ⟨h0, h1, ?_⟩
  rw [handler_body_of_glyphs 200 _ 0 (by decide), handler_body_of_glyphs 200 _ 1 (by decide),
    h0, h1]
  simp only [String.append_assoc]
  intro h
  have h2 := append_left_cancel _ _ _ h
  revert h2
  decide

/-- C8, amended. Two runs of the handler on the same decoded records give bodies
that differ at most in the order of the options after "All": the two `Groups`
lists are arrangements of one another, the text before the drop-down and the
text after it are the same in both runs, and when the map iteration visits the
groups in the same order the two responses are identical. -/
theorem bodies_equal_up_to_option_order (StatusCode : Nat) (records : List Emoji)
    (seed₁ seed₂ : Nat) :
    (groups records seed₁).Perm (groups records seed₂) ∧
    (∃ rest,
      (handler .fresh (.response StatusCode records none) seed₁).1.body
        = pageHead ++ dropDown (groups records seed₁) ++ galleryOpen ++ rest ∧
      (handler .fresh (.response StatusCode records none) seed₂).1.body
        = pageHead ++ dropDown (groups records seed₂) ++ galleryOpen ++ rest) ∧
    (groups records seed₁ = groups records seed₂ →
      handler .fresh (.response StatusCode records none) seed₁
        = handler .fresh (.response StatusCode records none) seed₂) := by
  refine ⟨(groups_perm records seed₁).trans (groups_perm records seed₂).symm, ?_, ?_⟩
  · obtain ⟨rest, err, h⟩ := Execute_exists .fresh records
    refine ⟨rest, ?_, ?_⟩ <;>
    · simp only [handler, Parse, h, Write_body]
      simp [ResponseWriter.fresh, String.append_assoc]
  · intro hg
    simp only [handler, hg]

/-- C8, amended, at two records of groups "a" and "b" and the iteration choices 0
and 2, which visit the groups in the same order. -/
theorem bodies_equal_same_option_order :
    groups [⟨"x", "c", "a", ["1"], []⟩, ⟨"y", "c", "b", ["2"], []⟩] 0
      = groups [⟨"x", "c", "a", ["1"], []⟩, ⟨"y", "c", "b", ["2"], []⟩] 2 ∧
    handler .fresh (.response 200 [⟨"x", "c", "a", ["1"], []⟩, ⟨"y", "c", "b", ["2"], []⟩] none) 0
      = handler .fresh
          (.response 200 [⟨"x", "c", "a", ["1"], []⟩, ⟨"y", "c", "b", ["2"], []⟩] none) 2 :=
  ⟨by decide, (bodies_equal_up_to_option_order 200 _ 0 2).2.2 (by decide)⟩

/-- C9, refuted as stated. With the drop-down on "smileys", a card whose group is
"Smileys" stays visible although its group differs from the selection in letter
case; and a group option "ALL" acts as the sentinel: a card of group "smileys"
stays visible under it. -/
theorem filter_compares_groups_without_case :
    filterEmojis asciiLower "" "smileys" [⟨["emoji-card"], "grinning face", "face", "Smileys"⟩]
      = [⟨["emoji-card"], "grinning face", "face", "Smileys"⟩] ∧
    visible ⟨["emoji-card"], "grinning face", "face", "Smileys"⟩ ∧
    "Smileys" ≠ "smileys" ∧ "smileys" ≠ "all" ∧
    filterEmojis asciiLower "" "ALL" [⟨["emoji-card"], "grinning face", "face", "smileys"⟩]
      = [⟨["emoji-card"], "grinning face", "face", "smileys"⟩] ∧
    "ALL" ≠ "all" ∧ "smileys" ≠ "ALL" := by
  decide

/-- C9, amended. After `filterEmojis` runs with search text `s` and selected group
`g`, the cards are the same cards in the same order, texts unchanged, and a card is
visible if and only if its lower-cased name or lower-cased category contains the
lower-cased `s`, and the lower-cased `g` is "all" or equals the lower-cased group of
the card; every other card carries `hidden`. Here `includes` is containment as a
contiguous run. -/
theorem filter_shows_exactly_matching_cards (toLowerCase : String → String) (s g : String)
    (emojiCards : List Card) :
    List.Forall₂
      (fun c c' =>
        c'.name = c.name ∧ c'.category = c.category ∧ c'.group = c.group ∧
        (visible c' ↔
          (includes (toLowerCase c.name) (toLowerCase s) = true
            ∨ includes (toLowerCase c.category) (toLowerCase s) = true)
          ∧ (toLowerCase g = "all" ∨ toLowerCase c.group = toLowerCase g)) ∧
        (¬ visible c' → "hidden" ∈ c'.classList))
      emojiCards (filterEmojis toLowerCase s g emojiCards) ∧
    (∀ a b : String, includes a b = true ↔ ∃ x y : String, a = x ++ b ++ y) := by
  refine ⟨?_, includes_iff⟩
  unfold filterEmojis
  rw [List.forall₂_map_right_iff]
  apply List.forall₂_same.2
  intro c _
  dsimp only
  refine ⟨?_, ?_, ?_, ?_, ?_⟩
  · split <;> rfl
  · split <;> rfl
  · split <;> rfl
  · split
    · rename_i hc
      simp only [Bool.and_eq_true, Bool.or_eq_true, beq_iff_eq] at hc
      exact ⟨fun _ => hc, fun _ => visible_classListRemove _⟩
    · rename_i hc
      simp only [Bool.and_eq_true, Bool.or_eq_true, beq_iff_eq] at hc
      exact ⟨fun h => absurd (hidden_classListAdd _) h, fun h => absurd h hc⟩
  · split
    · intro h
      exact absurd (visible_classListRemove _) h
    · intro _
      exact hidden_classListAdd _

/-- C10. Two record sequences of equal length that agree position by position on
name, category, group and first element of `HtmlCode`, all `HtmlCode` lists being
non-empty, are rendered alike whatever their `Unicode` lists and further glyphs:
the gallery loop writes the same text, both pages carry the same gallery section
between the same fixed texts, the `Groups` lists hold the same options under any
two iteration orders, and under the same iteration order the whole response of
the handler is the same. -/
theorem page_reads_only_four_fields (r₁ r₂ : List Emoji)
    (h : List.Forall₂ sameRendered r₁ r₂)
    (h₁ : ∀ e ∈ r₁, e.HtmlCode ≠ []) (h₂ : ∀ e ∈ r₂, e.HtmlCode ≠ []) :
    r₁.length = r₂.length ∧
    (∀ w, execData w r₁ = execData w r₂) ∧
    (∃ gallery, ∀ StatusCode seed₁ seed₂,
      (handler .fresh (.response StatusCode r₁ none) seed₁).1.body
        = pageHead ++ dropDown (groups r₁ seed₁) ++ galleryOpen ++ gallery ++ pageTail ∧
      (handler .fresh (.response StatusCode r₂ none) seed₂).1.body
        = pageHead ++ dropDown (groups r₂ seed₂) ++ galleryOpen ++ gallery ++ pageTail) ∧
    (∀ seed₁ seed₂, (groups r₁ seed₁).Perm (groups r₂ seed₂)) ∧
    (∀ seed₁ seed₂ g, g ∈ groups r₁ seed₁ ↔ g ∈ groups r₂ seed₂) ∧
    (∀ w StatusCode seed,
      handler w (.response StatusCode r₁ none) seed
        = handler w (.response StatusCode r₂ none) seed) := by
  have hm : groupMap r₁ = groupMap r₂ := groupMap_congr _ _ (map_Group_congr _ _ h)
  have hp : ∀ seed₁ seed₂, (groups r₁ seed₁).Perm (groups r₂ seed₂) := fun s₁ s₂ =>
    (groups_perm r₁ s₁).trans (hm ▸ (groups_perm r₂ s₂).symm)
  have hc : r₁.map card = r₂.map card := by
    clear hm hp h₁ h₂
    induction h with
    | nil => rfl
    | @cons e₁ e₂ l₁ l₂ hab _ ih =>
      obtain ⟨hn, hc, hg, hh⟩ := hab
      simp [card, hn, hc, hg, List.headD_eq_head?_getD, hh, ih]
  refine ⟨h.length_eq, execData_congr _ _ h, ⟨String.join (r₁.map card), ?_⟩, hp,
    fun s₁ s₂ g => (hp s₁ s₂).mem_iff, ?_⟩
  · intro sc s₁ s₂
    rw [handler_body_of_glyphs sc r₁ s₁ h₁, handler_body_of_glyphs sc r₂ s₂ h₂, hc]
    exact ⟨rfl, rfl⟩
  · intro w sc seed
    have hg : groups r₁ seed = groups r₂ seed := by unfold groups; rw [hm]
    simp only [handler, Execute, hg, execData_congr _ _ h]

/-- C10, at the record "grinning face" and a copy of it with a second glyph and
another `Unicode` list. -/
theorem page_reads_only_four_fields_grinning_face :
    List.Forall₂ sameRendered [grinning]
      [⟨"grinning face", "face", "smileys", ["&#128512;", "&#x1F600;"], ["U+0"]⟩] ∧
    (∀ e ∈ [grinning], e.HtmlCode ≠ []) ∧
    (∀ e ∈ [(⟨"grinning face", "face", "smileys", ["&#128512;", "&#x1F600;"], ["U+0"]⟩ : Emoji)],
      e.HtmlCode ≠ []) ∧
    (∀ w StatusCode seed,
      handler w (.response StatusCode [grinning] none) seed
        = handler w (.response StatusCode
            [⟨"grinning face", "face", "smileys", ["&#128512;", "&#x1F600;"], ["U+0"]⟩] none)
            seed) :=
  ⟨List.Forall₂.cons (by decide) List.Forall₂.nil, by decide, by decide,
    (page_reads_only_four_fields [grinning]
      [⟨"grinning face", "face", "smileys", ["&#128512;", "&#x1F600;"], ["U+0"]⟩]
      (List.Forall₂.cons (by decide) List.Forall₂.nil) (by decide) (by decide)).2.2.2.2.2⟩

end Gomoji
